import Mathlib

/-!
Verification development for the StackTach exists-snapshot verifier
(`verifier/dbverifier.py`).

Embedding conventions:
* Timestamps are natural numbers counting microseconds since the epoch;
  the store keeps them as optional values (nullable decimal columns).
  The Python code converts between `datetime` values and decimals with
  microsecond precision, so this representation is exact.  Truncating a
  timestamp to whole seconds (`int(d)` in the source) is `t / 1000000`.
* Python truthiness matters in several places (`if d1 and d2`,
  `if not exist.launched_at`, `if reason`): a `None` value and a numeric
  zero are both falsy, as is an empty string.  We model this explicitly.
* The relational store is a record of three lists (usages, deletes,
  reconciles); Django query sets become list filters, and `count()` is
  the list length.  `qs[0]` is the head of the filtered list.
* Exceptions become an explicit error type threaded through `Except`;
  the snapshot mutation performed by `save()` is modelled by returning
  the updated snapshot.
-/

/-- Status lifecycle of an exists snapshot.  Modelled from the spec: the
constants `PENDING`, `VERIFYING`, `VERIFIED`, `RECONCILED`, `FAILED` live on
`models.InstanceExists` in `stacktach/models.py`, which is not under `src/`;
the source refers to them by name only. -/
inductive ExistStatus where
  | pending
  | verifying
  | verified
  | reconciled
  | failed
deriving DecidableEq

/-- A launch ("usage") record, `models.InstanceUsage`. -/
structure InstanceUsage where
  inst : String
  launched_at : Option Nat
  instance_type_id : Option String
  tenant : Option String
  rax_options : Option String
  os_architecture : Option String
  os_version : Option String
  os_distro : Option String
deriving DecidableEq

/-- A delete record, `models.InstanceDeletes`. -/
structure InstanceDeletes where
  inst : String
  launched_at : Option Nat
  deleted_at : Option Nat
deriving DecidableEq

/-- A reconcile record, `models.InstanceReconcile`: authoritative launch and
delete facts combined in one row. -/
structure InstanceReconcile where
  inst : String
  launched_at : Option Nat
  deleted_at : Option Nat
  instance_type_id : Option String
  tenant : Option String
  rax_options : Option String
  os_architecture : Option String
  os_version : Option String
  os_distro : Option String
deriving DecidableEq

/-- An exists snapshot, `models.InstanceExists`.  The column named
`instance` in the source is called `inst` here because `instance` is a
Lean keyword. -/
structure InstanceExists where
  inst : String
  launched_at : Option Nat
  deleted_at : Option Nat
  audit_period_ending : Option Nat
  instance_type_id : Option String
  tenant : Option String
  rax_options : Option String
  os_architecture : Option String
  os_version : Option String
  os_distro : Option String
  status : ExistStatus
  fail_reason : Option String
  usage : Option InstanceUsage
  delete : Option InstanceDeletes
deriving DecidableEq

/-- The record fields `_verify_field_mismatch` reads from its `launch`
argument.  Both `InstanceUsage` and `InstanceReconcile` provide them
(Python duck typing). -/
structure LaunchLike where
  launched_at : Option Nat
  instance_type_id : Option String
  tenant : Option String
  rax_options : Option String
  os_architecture : Option String
  os_version : Option String
  os_distro : Option String
deriving DecidableEq

/-- The record fields the delete checks read from their `delete` argument.
Both `InstanceDeletes` and `InstanceReconcile` provide them. -/
structure DeleteLike where
  launched_at : Option Nat
  deleted_at : Option Nat
deriving DecidableEq

def InstanceUsage.toLaunchLike (u : InstanceUsage) : LaunchLike :=
  ⟨u.launched_at, u.instance_type_id, u.tenant, u.rax_options,
   u.os_architecture, u.os_version, u.os_distro⟩

def InstanceReconcile.toLaunchLike (r : InstanceReconcile) : LaunchLike :=
  ⟨r.launched_at, r.instance_type_id, r.tenant, r.rax_options,
   r.os_architecture, r.os_version, r.os_distro⟩

def InstanceDeletes.toDeleteLike (d : InstanceDeletes) : DeleteLike :=
  ⟨d.launched_at, d.deleted_at⟩

def InstanceReconcile.toDeleteLike (r : InstanceReconcile) : DeleteLike :=
  ⟨r.launched_at, r.deleted_at⟩

/-- The relational store as seen by one verification attempt. -/
structure DB where
  usages : List InstanceUsage
  deletes : List InstanceDeletes
  reconciles : List InstanceReconcile
deriving DecidableEq

/-- Python truthiness of an optional timestamp: `None` and the zero
decimal are falsy, every other value is truthy. -/
def truthyTs : Option Nat → Bool
  | none => false
  | some v => decide (v ≠ 0)

/-- Python truthiness of an optional string: `None` and the empty string
are falsy. -/
def truthyStr : Option String → Bool
  | none => false
  | some s => decide (s ≠ "")

/-- Embeds `_verify_date_field(d1, d2, same_second)`: both values must be
truthy, then they are equal exactly or (with `same_second`) equal after
truncation to whole seconds. -/
def verify_date_field (d1 d2 : Option Nat) (same_second : Bool) : Bool :=
  match d1, d2 with
  | some a, some b =>
    if a ≠ 0 ∧ b ≠ 0 then
      if a = b then true
      else if same_second ∧ a / 1000000 = b / 1000000 then true
      else false
    else false
  | _, _ => false

/-- The one-second launch window used by all three finders: the launch
timestamp truncated to its enclosing second gives `lo`, and the window is
the closed interval `[lo, lo + 999999]` microseconds
(`start = launched - microsecond component`, `end = start + 999999`). -/
def inLaunchWindow (launched : Nat) (t : Option Nat) : Bool :=
  let lo := launched / 1000000 * 1000000
  let hi := lo + 999999
  match t with
  | none => false
  | some l => decide (lo ≤ l) && decide (l ≤ hi)

/-- Embeds `_find_launch`: usages of the instance whose launch time falls in
the one-second window around `launched`. -/
def find_launch (db : DB) (inst : String) (launched : Nat) : List InstanceUsage :=
  db.usages.filter (fun u => u.inst == inst && inLaunchWindow launched u.launched_at)

/-- Embeds `_find_reconcile`: reconcile records of the instance in the
one-second launch window. -/
def find_reconcile (db : DB) (inst : String) (launched : Nat) : List InstanceReconcile :=
  db.reconciles.filter (fun r => r.inst == inst && inLaunchWindow launched r.launched_at)

/-- Embeds `_find_delete`: delete records of the instance in the one-second
launch window; when `deleted_max` is given, additionally restricted by
`deleted_at__lte deleted_max` (an inclusive upper bound, and a record with
a null `deleted_at` never satisfies it). -/
def find_delete (db : DB) (inst : String) (launched : Nat)
    (deleted_max : Option Nat) : List InstanceDeletes :=
  db.deletes.filter (fun d =>
    d.inst == inst && inLaunchWindow launched d.launched_at &&
    (match deleted_max with
     | none => true
     | some m =>
       match d.deleted_at with
       | none => false
       | some t => decide (t ≤ m)))

/-- Verification-level and infrastructure exceptions raised during one
verification attempt.  Modelled from the spec: the class hierarchy lives in
`verifier/__init__.py`, which is not under `src/` — per §7 of the design,
`NotFound`, `AmbiguousResults` and `FieldMismatch` are verification-level
conditions (subclasses of `VerificationException`), while `pyError` stands
for any other runtime exception, carrying its class name. -/
inductive VerifyErr where
  | notFound (object_type : String) (search_params : String)
  | ambiguousResults (object_type : String) (search_params : String)
  | fieldMismatch (field : String) (expected : String) (actual : String)
  | verificationException (reason : String)
  | pyError (name : String)
deriving DecidableEq

/-- Whether the exception is caught by `except VerificationException`
(true for `NotFound`, `AmbiguousResults`, `FieldMismatch` and the base
class itself). -/
def VerifyErr.isVerificationException : VerifyErr → Bool
  | .pyError _ => false
  | _ => true

/-- Python `e.__class__.__name__` for the generic exception handler. -/
def VerifyErr.className : VerifyErr → String
  | .notFound _ _ => "NotFound"
  | .ambiguousResults _ _ => "AmbiguousResults"
  | .fieldMismatch _ _ _ => "FieldMismatch"
  | .verificationException _ => "VerificationException"
  | .pyError n => n

/-- Modelled from the spec: `str(e)` renderings of the exception classes of
`verifier/__init__.py` (not under `src/`).  Only the fact that the message
is derived from the exception it renders matters to the claims. -/
def VerifyErr.toMessage : VerifyErr → String
  | .notFound t q => "Cannot find " ++ t ++ " using query " ++ q
  | .ambiguousResults t q => "Ambiguous results for " ++ t ++ " using query " ++ q
  | .fieldMismatch f e a => "Expected " ++ f ++ " to be " ++ e ++ " got " ++ a
  | .verificationException r => r
  | .pyError n => n

/-- Rendering of an optional timestamp inside query and mismatch text. -/
def optNatStr : Option Nat → String
  | none => "None"
  | some n => toString n

/-- Rendering of an optional string inside mismatch text. -/
def optStr : Option String → String
  | none => "None"
  | some s => s

/-- The search dictionary built from an instance and its launch time. -/
def launchQuery (inst : String) (la : Option Nat) : String :=
  "instance: " ++ inst ++ ", launched_at: " ++ optNatStr la

/-- The search dictionary built from an instance alone. -/
def instQuery (inst : String) : String :=
  "instance: " ++ inst

/-- Embeds `_mark_exist_verified(exist, reconciled, reason)`: with
`reconciled` false the status becomes VERIFIED (and the reason is ignored);
otherwise RECONCILED, storing the reason when it is not `None`. -/
def mark_exist_verified (e : InstanceExists) (reconciled : Bool)
    (reason : Option String) : InstanceExists :=
  if reconciled = false then { e with status := ExistStatus.verified }
  else
    match reason with
    | some _ => { e with status := ExistStatus.reconciled, fail_reason := reason }
    | none => { e with status := ExistStatus.reconciled }

/-- Embeds `_mark_exist_failed(exist, reason)`: status becomes FAILED, and
the fail reason is stored only when truthy (not `None` and not empty). -/
def mark_exist_failed (e : InstanceExists) (reason : Option String) : InstanceExists :=
  if truthyStr reason then { e with status := ExistStatus.failed, fail_reason := reason }
  else { e with status := ExistStatus.failed }

/-- Embeds `_verify_field_mismatch(exists, launch)`: compares the seven
fields in the source's order, raising `FieldMismatch` at the first field
that disagrees (`launched_at` with same-second tolerance, the rest with
plain equality). -/
def verify_field_mismatch (e : InstanceExists) (l : LaunchLike) : Except VerifyErr Unit :=
  if verify_date_field l.launched_at e.launched_at true = false then
    .error (.fieldMismatch "launched_at" (optNatStr e.launched_at) (optNatStr l.launched_at))
  else if l.instance_type_id ≠ e.instance_type_id then
    .error (.fieldMismatch "instance_type_id" (optStr e.instance_type_id)
            (optStr l.instance_type_id))
  else if l.tenant ≠ e.tenant then
    .error (.fieldMismatch "tenant" (optStr e.tenant) (optStr l.tenant))
  else if l.rax_options ≠ e.rax_options then
    .error (.fieldMismatch "rax_options" (optStr e.rax_options) (optStr l.rax_options))
  else if l.os_architecture ≠ e.os_architecture then
    .error (.fieldMismatch "os_architecture" (optStr e.os_architecture)
            (optStr l.os_architecture))
  else if l.os_version ≠ e.os_version then
    .error (.fieldMismatch "os_version" (optStr e.os_version) (optStr l.os_version))
  else if l.os_distro ≠ e.os_distro then
    .error (.fieldMismatch "os_distro" (optStr e.os_distro) (optStr l.os_distro))
  else .ok ()

/-- The launch-resolution step of `_verify_for_launch`: use the explicit
launch argument, else the pre-attached usage, else search — raising
`AmbiguousResults` for more than one window candidate and `NotFound` for
zero (with an instance-only query when the instance has no usage rows at
all). -/
def resolve_launch (db : DB) (e : InstanceExists) (launch? : Option LaunchLike)
    (launch_type : String) : Except VerifyErr LaunchLike :=
  match launch? with
  | some l => .ok l
  | none =>
    match e.usage with
    | some u => .ok u.toLaunchLike
    | none =>
      if (db.usages.filter (fun u => u.inst == e.inst)).length > 0 then
        match e.launched_at with
        | none => .error (.pyError "TypeError")
        | some la =>
          let launches := find_launch db e.inst la
          if launches.length > 1 then
            .error (.ambiguousResults launch_type (launchQuery e.inst e.launched_at))
          else if launches.length = 0 then
            .error (.notFound launch_type (launchQuery e.inst e.launched_at))
          else
            match launches with
            | l :: _ => .ok l.toLaunchLike
            | [] => .error (.pyError "IndexError")
      else .error (.notFound launch_type (instQuery e.inst))

/-- Embeds `_verify_for_launch(exist, launch, launch_type)`. -/
def verify_for_launch (db : DB) (e : InstanceExists) (launch? : Option LaunchLike)
    (launch_type : String) : Except VerifyErr Unit :=
  match resolve_launch db e launch? launch_type with
  | .error err => .error err
  | .ok l => verify_field_mismatch e l

/-- The trailing `if delete:` block of `_verify_for_delete`: compare the
resolved delete record's launch and delete timestamps against the
snapshot's, both with same-second tolerance. -/
def delete_date_checks (e : InstanceExists) (d : DeleteLike) : Except VerifyErr Unit :=
  if verify_date_field d.launched_at e.launched_at true = false then
    .error (.fieldMismatch "launched_at" (optNatStr e.launched_at) (optNatStr d.launched_at))
  else if verify_date_field d.deleted_at e.deleted_at true = false then
    .error (.fieldMismatch "deleted_at" (optNatStr e.deleted_at) (optNatStr d.deleted_at))
  else .ok ()

/-- The delete-resolution step of `_verify_for_delete`: use the explicit
delete argument, else the pre-attached delete; otherwise, when the snapshot
has a truthy deleted-at, search the launch window and demand exactly one
candidate (anything else raises `NotFound`); when it has none, search for
deletes at or before the audit-period end and raise a
`VerificationException` if any exist.  Returns the resolved record, or
`none` when the no-delete search found nothing. -/
def resolve_delete (db : DB) (e : InstanceExists) (delete? : Option DeleteLike)
    (delete_type : String) : Except VerifyErr (Option DeleteLike) :=
  match delete? with
  | some d => .ok (some d)
  | none =>
    match e.delete with
    | some d => .ok (some d.toDeleteLike)
    | none =>
      if truthyTs e.deleted_at then
        match e.launched_at with
        | none => .error (.pyError "TypeError")
        | some la =>
          let deletes := find_delete db e.inst la none
          if deletes.length = 1 then
            match deletes with
            | d :: _ => .ok (some d.toDeleteLike)
            | [] => .error (.pyError "IndexError")
          else .error (.notFound delete_type (launchQuery e.inst e.launched_at))
      else
        match e.launched_at with
        | none => .error (.pyError "TypeError")
        | some la =>
          match e.audit_period_ending with
          | none => .error (.pyError "TypeError")
          | some ape =>
            let deletes := find_delete db e.inst la (some ape)
            if deletes.length > 0 then
              .error (.verificationException
                      ("Found " ++ delete_type ++ "s for non-delete exist"))
            else .ok none

/-- Embeds `_verify_for_delete(exist, delete, delete_type)`. -/
def verify_for_delete (db : DB) (e : InstanceExists) (delete? : Option DeleteLike)
    (delete_type : String) : Except VerifyErr Unit :=
  match resolve_delete db e delete? delete_type with
  | .error err => .error err
  | .ok (some d) => delete_date_checks e d
  | .ok none => .ok ()

/-- The reconcile-record lookup of `_verify_with_reconciled_data`: demand
exactly one reconcile record in the launch window, raising
`AmbiguousResults` for more than one and `NotFound` for zero (with an
instance-only query when the instance has no reconcile rows at all). -/
def resolve_reconcile (db : DB) (e : InstanceExists) : Except VerifyErr InstanceReconcile :=
  if (db.reconciles.filter (fun r => r.inst == e.inst)).length > 0 then
    match e.launched_at with
    | none => .error (.pyError "TypeError")
    | some la =>
      let recs := find_reconcile db e.inst la
      if recs.length > 1 then
        .error (.ambiguousResults "InstanceReconcile" (launchQuery e.inst e.launched_at))
      else if recs.length = 0 then
        .error (.notFound "InstanceReconcile" (launchQuery e.inst e.launched_at))
      else
        match recs with
        | r :: _ => .ok r
        | [] => .error (.pyError "IndexError")
  else .error (.notFound "InstanceReconcile" (instQuery e.inst))

/-- Embeds `_verify_with_reconciled_data(exist, ex)`: require a truthy
launched-at, resolve the unique reconcile record, then run the launch and
delete verifications with the reconcile record as both sources. -/
def verify_with_reconciled_data (db : DB) (e : InstanceExists) : Except VerifyErr Unit :=
  if truthyTs e.launched_at = false then
    .error (.verificationException "Exists without a launched_at")
  else
    match resolve_reconcile db e with
    | .error err => .error err
    | .ok r =>
      match verify_for_launch db e (some r.toLaunchLike) "InstanceReconcile" with
      | .error err => .error err
      | .ok _ => verify_for_delete db e (some r.toDeleteLike) "InstanceReconcile"

/-- Embeds `_attempt_reconciled_verify(exist, orig_e)`: on success mark the
snapshot via `_mark_exist_verified(exist)` (both parameters left at their
defaults, exactly as in the source); `NotFound` marks it failed with the
original exception's message, any other `VerificationException` with the
fallback exception's message, and anything else with the exception class
name.  Returns the `verified` flag with the updated snapshot. -/
def attempt_reconciled_verify (db : DB) (e : InstanceExists) (orig : VerifyErr) :
    Bool × InstanceExists :=
  match verify_with_reconciled_data db e with
  | .ok _ => (true, mark_exist_verified e false none)
  | .error (.notFound _ _) => (false, mark_exist_failed e (some orig.toMessage))
  | .error err =>
    if err.isVerificationException then (false, mark_exist_failed e (some err.toMessage))
    else (false, mark_exist_failed e (some err.className))

/-- The body of the `try` block of `_verify`: the structural launched-at
check, then launch verification, then delete verification. -/
def verify_fast (db : DB) (e : InstanceExists) : Except VerifyErr Unit :=
  if truthyTs e.launched_at = false then
    .error (.verificationException "Exists without a launched_at")
  else
    match verify_for_launch db e none "InstanceUsage" with
    | .error err => .error err
    | .ok _ => verify_for_delete db e none "InstanceDelete"

/-- Embeds `_verify(exist)`: run the fast path; on success mark VERIFIED;
on a `VerificationException` attempt the reconciliation fallback; on any
other exception mark FAILED with the exception class name.  Total by
construction — every exception of the source is handled here, so no
condition escapes to the caller. -/
def dbverify (db : DB) (e : InstanceExists) : Bool × InstanceExists :=
  match verify_fast db e with
  | .ok _ => (true, mark_exist_verified e false none)
  | .error err =>
    if err.isVerificationException then attempt_reconciled_verify db e err
    else (false, mark_exist_failed e (some err.className))

/-- A JSON object as an association list with unique keys (a Python dict). -/
def getField : List (String × String) → String → Option String
  | [], _ => none
  | (k1, v) :: rest, k => if k1 = k then some v else getField rest k

/-- Python dict assignment `d[k] = v`: replace the first binding of `k`,
or append a new one when the key is absent. -/
def setField : List (String × String) → String → String → List (String × String)
  | [], k, v => [(k, v)]
  | (k1, v1) :: rest, k, v =>
    if k1 = k then (k, v) :: rest else (k1, v1) :: setField rest k v

/-- The raw inbound message attached to a snapshot: `json.loads(exist.raw.json)`
is a two-element array of the routing key and the notification body. -/
structure RawMessage where
  routing_key : String
  body : List (String × String)
deriving DecidableEq

/-- Embeds `send_verified_notification(exist, connection, exchange,
routing_keys)`: set the event type to the verified variant, copy the prior
message id into `original_message_id` (a `KeyError` propagates when the body
has no `message_id`), store a fresh message id, then publish the body once
per configured routing key — or once on the message's own routing key when
none are configured.  The fresh uuid is a parameter; the result lists each
published (routing key, body) pair. -/
def send_verified_notification (raw : RawMessage) (fresh : String)
    (routing_keys : Option (List String)) :
    Except String (List (String × List (String × String))) :=
  let b1 := setField raw.body "event_type" "compute.instance.exists.verified.old"
  match getField b1 "message_id" with
  | none => .error "KeyError"
  | some mid =>
    let b2 := setField b1 "original_message_id" mid
    let b3 := setField b2 "message_id" fresh
    match routing_keys with
    | none => .ok [(raw.routing_key, b3)]
    | some keys => .ok (keys.map (fun k => (k, b3)))

/-- A kombu exchange as far as `_create_exchange` populates it. -/
structure Exchange where
  name : String
  type : String
  exclusive : Bool
  auto_delete : Bool
  durable : Bool
deriving DecidableEq

/-- Embeds `_create_exchange(name, type, exclusive, auto_delete, durable)`:
the source passes `exclusive=auto_delete` and `auto_delete=exclusive` to the
kombu constructor, so the two flags land swapped. -/
def create_exchange (name ty : String) (exclusive auto_delete : Bool)
    (durable : Bool := true) : Exchange :=
  { name := name, type := ty, exclusive := auto_delete,
    auto_delete := exclusive, durable := durable }

/-- The exchange built by `Verifier.run` and `Verifier.run_once`: a topic
exchange with `exclusive` and `auto_delete` left at their default `False`. -/
def run_exchange (exchange_name : String) (durable_queue : Bool) : Exchange :=
  create_exchange exchange_name "topic" false false durable_queue

/-- Specification-side rendering of the Matcher contract of §4.1: the seven
compared fields in their fixed order, each with its comparison outcome and
the expected/actual rendering used on a mismatch. -/
def fieldChecks (e : InstanceExists) (l : LaunchLike) :
    List (String × Bool × String × String) :=
  [ ("launched_at", verify_date_field l.launched_at e.launched_at true,
     optNatStr e.launched_at, optNatStr l.launched_at),
    ("instance_type_id", decide (l.instance_type_id = e.instance_type_id),
     optStr e.instance_type_id, optStr l.instance_type_id),
    ("tenant", decide (l.tenant = e.tenant), optStr e.tenant, optStr l.tenant),
    ("rax_options", decide (l.rax_options = e.rax_options),
     optStr e.rax_options, optStr l.rax_options),
    ("os_architecture", decide (l.os_architecture = e.os_architecture),
     optStr e.os_architecture, optStr l.os_architecture),
    ("os_version", decide (l.os_version = e.os_version),
     optStr e.os_version, optStr l.os_version),
    ("os_distro", decide (l.os_distro = e.os_distro),
     optStr e.os_distro, optStr l.os_distro) ]

/-- The first failing comparison in the fixed field order, if any. -/
def firstMismatch (e : InstanceExists) (l : LaunchLike) :
    Option (String × Bool × String × String) :=
  (fieldChecks e l).find? (fun c => !c.2.1)

/-- Specification-side date equality in the words of the claim: the two
values are equal, or both truncated to integer seconds are equal; absence
on either side is a mismatch.  (Unlike the source, presence alone suffices:
a zero timestamp is not special.) -/
def date_equal_claim (d1 d2 : Option Nat) : Bool :=
  match d1, d2 with
  | some a, some b => decide (a = b) || decide (a / 1000000 = b / 1000000)
  | _, _ => false

/-- Concrete snapshot exercising the reconciliation-success path: its single
fast-path launch candidate disagrees on the tenant, and a single reconcile
record agrees with the snapshot on every compared field. -/
def c1Usage : InstanceUsage :=
  ⟨"i1", some 1000000, some "1", some "t2", some "0", some "x64", some "v", some "u"⟩

def c1Reconcile : InstanceReconcile :=
  ⟨"i1", some 1000000, some 4000000, some "1", some "t1", some "0", some "x64",
   some "v", some "u"⟩

def c1Exist : InstanceExists :=
  ⟨"i1", some 1000000, some 4000000, some 7200000000, some "1", some "t1", some "0",
   some "x64", some "v", some "u", ExistStatus.verifying, none, none, none⟩

def c1DB : DB := ⟨[c1Usage], [], [c1Reconcile]⟩

/-- Concrete snapshot whose fast path fails on a tenant mismatch and whose
store holds no reconcile record at all. -/
def c4Usage : InstanceUsage :=
  ⟨"i4", some 1000000, some "1", some "t2", some "0", some "x64", some "v", some "u"⟩

def c4Exist : InstanceExists :=
  ⟨"i4", some 1000000, none, some 7200000000, some "1", some "t1", some "0",
   some "x64", some "v", some "u", ExistStatus.verifying, none, none, none⟩

def c4DB : DB := ⟨[c4Usage], [], []⟩

/-- Concrete no-deleted-at snapshot with one delete of the same instance at
or before its audit-period end. -/
def c5Delete : InstanceDeletes := ⟨"i5", some 1000000, some 1800000000⟩

def c5Exist : InstanceExists :=
  ⟨"i5", some 1000000, none, some 3600000000, some "1", some "t", some "0",
   some "x", some "v", some "d", ExistStatus.verifying, none, none, none⟩

def c5DB : DB := ⟨[], [c5Delete], []⟩

/-- Concrete snapshot with exactly one matching launch candidate. -/
def c3wUsage : InstanceUsage :=
  ⟨"i3", some 1000000, some "1", some "t", some "0", some "x", some "v", some "u"⟩

def c3wExist : InstanceExists :=
  ⟨"i3", some 1000000, none, some 3600000000, some "1", some "t", some "0",
   some "x", some "v", some "u", ExistStatus.verifying, none, none, none⟩

def c3wDB : DB := ⟨[c3wUsage], [], []⟩

/-- Concrete snapshot with a deleted-at value and two delete candidates in
its launch window. -/
def c3d1 : InstanceDeletes := ⟨"i3c", some 1000000, some 4000000⟩

def c3d2 : InstanceDeletes := ⟨"i3c", some 1500000, some 4000001⟩

def c3cExist : InstanceExists :=
  ⟨"i3c", some 1000000, some 4000000, some 7200000000, some "1", some "t", some "0",
   some "x", some "v", some "u", ExistStatus.verifying, none, none, none⟩

def c3cDB : DB := ⟨[], [c3d1, c3d2], []⟩

/-- Concrete delete record whose deletion time equals the search bound
exactly. -/
def c6Delete : InstanceDeletes := ⟨"i6", some 1000000, some 5000000⟩

def c6DB : DB := ⟨[], [c6Delete], []⟩

theorem mark_exist_failed_status (e : InstanceExists) (r : Option String) :
    (mark_exist_failed e r).status = ExistStatus.failed := by
  unfold mark_exist_failed
  split <;> rfl

theorem mem_find_delete (db : DB) (inst : String) (launched bound : Nat)
    (d : InstanceDeletes) :
    d ∈ find_delete db inst launched (some bound) ↔
      d ∈ db.deletes ∧ d.inst = inst ∧ inLaunchWindow launched d.launched_at = true ∧
      ∃ t, d.deleted_at = some t ∧ t ≤ bound := by
  unfold find_delete
  constructor
  · intro h
    obtain ⟨hmem, hcond⟩ := List.mem_filter.mp h
    simp only [Bool.and_eq_true, beq_iff_eq] at hcond
    obtain ⟨⟨hinst, hwin⟩, hdel⟩ := hcond
    refine ⟨hmem, hinst, hwin, ?_⟩
    cases hd : d.deleted_at with
    | none => rw [hd] at hdel; simp at hdel
    | some t =>
      rw [hd] at hdel
      exact ⟨t, rfl, by simpa using hdel⟩
  · rintro ⟨hmem, hinst, hwin, t, hd, ht⟩
    refine List.mem_filter.mpr ⟨hmem, ?_⟩
    simp [hinst, hwin, hd, ht]

/-- C10: `_create_exchange` passes its `exclusive` argument to the kombu
constructor's `auto_delete` parameter and vice versa, so the created
exchange's flags are swapped relative to the caller's same-named arguments;
`Verifier.run` and `Verifier.run_once` leave both arguments at their
default `False`, for which the swap is invisible. -/
theorem c10_create_exchange_swapped_flags :
    (∀ (n t : String) (ex ad d : Bool),
      (create_exchange n t ex ad d).exclusive = ad ∧
      (create_exchange n t ex ad d).auto_delete = ex) ∧
    (∀ (n : String) (d : Bool),
      run_exchange n d = Exchange.mk n "topic" false false d) := by
  exact ⟨fun n t ex ad d => ⟨rfl, rfl⟩, fun n d => rfl⟩

/-- C8 counterexample: at the pair of equal zero timestamps (the epoch),
the claim's predicate calls the values equal but `_verify_date_field`
reports a mismatch — Python truthiness treats the zero decimal like an
absent value. -/
theorem c8_zero_timestamp_counterexample :
    date_equal_claim (some 0) (some 0) = true ∧
    verify_date_field (some 0) (some 0) true = false := by
  exact ⟨rfl, rfl⟩

/-- C8 amended: the same-second comparison returns equal exactly when both
values are present and nonzero and the two values are equal or equal after
truncation to whole seconds; in every other case — either value absent or
equal to zero — it reports mismatch. -/
theorem c8_verify_date_field_amended (d1 d2 : Option Nat) :
    verify_date_field d1 d2 true =
      (truthyTs d1 && truthyTs d2 && date_equal_claim d1 d2) := by
  cases d1 with
  | none => cases d2 <;> simp [verify_date_field, truthyTs, date_equal_claim]
  | some a =>
    cases d2 with
    | none => simp [verify_date_field, truthyTs, date_equal_claim]
    | some b =>
      by_cases ha : a = 0 <;> by_cases hb : b = 0 <;> by_cases hab : a = b <;>
        by_cases hdiv : a / 1000000 = b / 1000000 <;>
        simp [verify_date_field, truthyTs, date_equal_claim, ha, hb, hab, hdiv]

/-- C6 counterexample: with the bound equal to a record's deletion time,
`_find_delete` still returns the record — the filter is `deleted_at__lte`,
an inclusive bound, so a deletion at the bound exactly is not excluded. -/
theorem c6_find_delete_inclusive_counterexample :
    c6Delete.deleted_at = some 5000000 ∧
    find_delete c6DB "i6" 1000000 (some 5000000) = [c6Delete] := by
  exact ⟨rfl, rfl⟩

/-- C6 amended: for every instance, launch timestamp and non-null bound,
`_find_delete` returns exactly the delete records of that instance in the
one-second launch window whose deletion time is at or before the bound
(an inclusive comparison — a record whose deletion time equals the bound
is included). -/
theorem c6_find_delete_bound_inclusive (db : DB) (inst : String)
    (launched bound : Nat) (d : InstanceDeletes) :
    d ∈ find_delete db inst launched (some bound) ↔
      d ∈ db.deletes ∧ d.inst = inst ∧ inLaunchWindow launched d.launched_at = true ∧
      ∃ t, d.deleted_at = some t ∧ t ≤ bound := by
  exact mem_find_delete db inst launched bound d

/-- C7: `_verify_field_mismatch` checks the seven fields in the fixed order
launched-at (same-second tolerant), instance type, tenant, provider options,
OS architecture, OS version, OS distro, and its outcome is exactly the first
failing comparison of that list — no aggregation of later mismatches.  The
function is pure: its embedding returns a value and touches no state. -/
theorem c7_verify_field_mismatch_first_field (e : InstanceExists) (l : LaunchLike) :
    verify_field_mismatch e l =
      (match firstMismatch e l with
       | none => Except.ok ()
       | some c => Except.error (VerifyErr.fieldMismatch c.1 c.2.2.1 c.2.2.2)) := by
  unfold verify_field_mismatch firstMismatch fieldChecks
  cases h1 : verify_date_field l.launched_at e.launched_at true <;>
    by_cases h2 : l.instance_type_id = e.instance_type_id <;>
    by_cases h3 : l.tenant = e.tenant <;>
    by_cases h4 : l.rax_options = e.rax_options <;>
    by_cases h5 : l.os_architecture = e.os_architecture <;>
    by_cases h6 : l.os_version = e.os_version <;>
    by_cases h7 : l.os_distro = e.os_distro <;>
    simp [h1, h2, h3, h4, h5, h6, h7, List.find?]

/-- C5: for a snapshot with no deleted-at and no pre-attached delete record,
the fast-path delete verification searches the instance's one-second launch
window for delete records whose deletion occurred at or before the
snapshot's audit-period end, and raises the no-delete contradiction (a
`VerificationException`) exactly when at least one such record exists;
otherwise it succeeds. -/
theorem c5_no_delete_contradiction (db : DB) (e : InstanceExists) (la ape : Nat)
    (hdel : e.delete = none) (hda : e.deleted_at = none)
    (hla : e.launched_at = some la) (hape : e.audit_period_ending = some ape) :
    (verify_for_delete db e none "InstanceDelete" =
        Except.error (VerifyErr.verificationException
          "Found InstanceDeletes for non-delete exist") ↔
      ∃ d ∈ db.deletes, d.inst = e.inst ∧ inLaunchWindow la d.launched_at = true ∧
        ∃ t, d.deleted_at = some t ∧ t ≤ ape) ∧
    (verify_for_delete db e none "InstanceDelete" = Except.ok () ↔
      ¬ ∃ d ∈ db.deletes, d.inst = e.inst ∧ inLaunchWindow la d.launched_at = true ∧
        ∃ t, d.deleted_at = some t ∧ t ≤ ape) := by
  have hex : (∃ d, d ∈ find_delete db e.inst la (some ape)) ↔
      ∃ d ∈ db.deletes, d.inst = e.inst ∧ inLaunchWindow la d.launched_at = true ∧
        ∃ t, d.deleted_at = some t ∧ t ≤ ape := by
    constructor
    · rintro ⟨d, hd⟩
      obtain ⟨hmem, h1, h2, h3⟩ := (mem_find_delete db e.inst la ape d).mp hd
      exact ⟨d, hmem, h1, h2, h3⟩
    · rintro ⟨d, hmem, h1, h2, h3⟩
      exact ⟨d, (mem_find_delete db e.inst la ape d).mpr ⟨hmem, h1, h2, h3⟩⟩
  by_cases hlen : (find_delete db e.inst la (some ape)).length > 0
  · have hres : verify_for_delete db e none "InstanceDelete" =
        Except.error (VerifyErr.verificationException
          "Found InstanceDeletes for non-delete exist") := by
      simp [verify_for_delete, resolve_delete, hdel, hda, hla, hape, truthyTs, hlen]
    obtain ⟨d, hd⟩ := List.exists_mem_of_length_pos hlen
    constructor
    · rw [hres]
      simp only [true_iff]
      exact hex.mp ⟨d, hd⟩
    · rw [hres]
      constructor
      · intro h; cases h
      · intro h; exact absurd (hex.mp ⟨d, hd⟩) h
  · have hnil : find_delete db e.inst la (some ape) = [] := by
      cases hcase : find_delete db e.inst la (some ape) with
      | nil => rfl
      | cons x xs => rw [hcase] at hlen; simp at hlen
    have hres : verify_for_delete db e none "InstanceDelete" = Except.ok () := by
      simp [verify_for_delete, resolve_delete, hdel, hda, hla, hape, truthyTs, hlen]
    have hnoex : ¬ ∃ d ∈ db.deletes, d.inst = e.inst ∧
        inLaunchWindow la d.launched_at = true ∧
        ∃ t, d.deleted_at = some t ∧ t ≤ ape := by
      intro h
      obtain ⟨d, hd⟩ := hex.mpr h
      rw [hnil] at hd
      cases hd
    rw [hres]
    constructor
    · constructor
      · intro h; cases h
      · intro h; exact absurd h hnoex
    · simp only [true_iff]
      exact hnoex

/-- C5 witness: a concrete never-deleted snapshot whose instance has one
delete record at or before its audit-period end is rejected with the
no-delete contradiction. -/
theorem c5_no_delete_contradiction_witness :
    verify_for_delete c5DB c5Exist none "InstanceDelete" =
      Except.error (VerifyErr.verificationException
        "Found InstanceDeletes for non-delete exist") := by
  exact (c5_no_delete_contradiction c5DB c5Exist 1000000 3600000000
          rfl rfl rfl rfl).1.mpr
    ⟨c5Delete, by decide, by decide, by decide, 1800000000, by decide, by decide⟩

theorem attempt_reconciled_status (db : DB) (e : InstanceExists) (orig : VerifyErr) :
    (attempt_reconciled_verify db e orig).2.status = ExistStatus.verified ∨
    (attempt_reconciled_verify db e orig).2.status = ExistStatus.failed := by
  unfold attempt_reconciled_verify
  cases hr : verify_with_reconciled_data db e with
  | ok u => left; rfl
  | error err2 =>
    cases err2 with
    | notFound t q => right; exact mark_exist_failed_status e _
    | ambiguousResults t q =>
      right; simp [VerifyErr.isVerificationException, mark_exist_failed_status]
    | fieldMismatch f x y =>
      right; simp [VerifyErr.isVerificationException, mark_exist_failed_status]
    | verificationException r =>
      right; simp [VerifyErr.isVerificationException, mark_exist_failed_status]
    | pyError n =>
      right; simp [VerifyErr.isVerificationException, mark_exist_failed_status]

/-- C2: one call to verify is total — the embedding of `_verify` handles
every exception class of the source, returns a (verified, snapshot) pair,
and the snapshot it persists is always in a terminal status (VERIFIED,
RECONCILED or FAILED), never PENDING or VERIFYING. -/
theorem c2_verify_always_terminal (db : DB) (e : InstanceExists) :
    ((dbverify db e).2.status = ExistStatus.verified ∨
     (dbverify db e).2.status = ExistStatus.reconciled ∨
     (dbverify db e).2.status = ExistStatus.failed) ∧
    (dbverify db e).2.status ≠ ExistStatus.pending ∧
    (dbverify db e).2.status ≠ ExistStatus.verifying := by
  have hterm : (dbverify db e).2.status = ExistStatus.verified ∨
      (dbverify db e).2.status = ExistStatus.failed := by
    unfold dbverify
    cases hf : verify_fast db e with
    | ok u => left; rfl
    | error err =>
      by_cases hv : err.isVerificationException = true
      · simp only [hv, if_true]
        exact attempt_reconciled_status db e err
      · simp only [hv, if_false]
        right; exact mark_exist_failed_status e _
  refine ⟨?_, ?_, ?_⟩
  · rcases hterm with h | h
    · exact Or.inl h
    · exact Or.inr (Or.inr h)
  · rcases hterm with h | h <;> simp [h]
  · rcases hterm with h | h <;> simp [h]

/-- C4: when the fast path fails with a verification-level condition and
the reconciliation fallback itself fails: a `NotFound` from the fallback
marks the snapshot FAILED using the original fast-path exception's message,
while any other verification-level fallback condition marks it FAILED using
the fallback exception's message; in both cases verify returns
verified=false. -/
theorem c4_fallback_failure_reasons (db : DB) (e : InstanceExists)
    (orig recErr : VerifyErr)
    (h1 : verify_fast db e = Except.error orig)
    (h2 : orig.isVerificationException = true)
    (h3 : verify_with_reconciled_data db e = Except.error recErr) :
    ((∃ t q, recErr = VerifyErr.notFound t q) →
      dbverify db e = (false, mark_exist_failed e (some orig.toMessage)) ∧
      (dbverify db e).2.status = ExistStatus.failed) ∧
    ((∀ t q, recErr ≠ VerifyErr.notFound t q) → recErr.isVerificationException = true →
      dbverify db e = (false, mark_exist_failed e (some recErr.toMessage)) ∧
      (dbverify db e).2.status = ExistStatus.failed) := by
  constructor
  · rintro ⟨t, q, rfl⟩
    have hres : dbverify db e = (false, mark_exist_failed e (some orig.toMessage)) := by
      unfold dbverify
      rw [h1]
      simp only [h2, if_true]
      unfold attempt_reconciled_verify
      rw [h3]
    exact ⟨hres, by rw [hres]; exact mark_exist_failed_status e _⟩
  · intro hnot hv
    have hres : dbverify db e = (false, mark_exist_failed e (some recErr.toMessage)) := by
      unfold dbverify
      rw [h1]
      simp only [h2, if_true]
      unfold attempt_reconciled_verify
      rw [h3]
      cases recErr with
      | notFound t q => exact absurd rfl (hnot t q)
      | ambiguousResults t q => simp [VerifyErr.isVerificationException]
      | fieldMismatch f x y => simp [VerifyErr.isVerificationException]
      | verificationException r => simp [VerifyErr.isVerificationException]
      | pyError n => exact absurd hv (by simp [VerifyErr.isVerificationException])
    exact ⟨hres, by rw [hres]; exact mark_exist_failed_status e _⟩

/-- C4 witness: a concrete snapshot whose fast path fails on a tenant
mismatch and whose store holds no reconcile record ends FAILED with the
original mismatch message. -/
theorem c4_fallback_failure_reasons_witness :
    dbverify c4DB c4Exist =
      (false, mark_exist_failed c4Exist
        (some (VerifyErr.fieldMismatch "tenant" "t1" "t2").toMessage)) ∧
    (dbverify c4DB c4Exist).2.status = ExistStatus.failed := by
  exact (c4_fallback_failure_reasons c4DB c4Exist
      (VerifyErr.fieldMismatch "tenant" "t1" "t2")
      (VerifyErr.notFound "InstanceReconcile" (instQuery "i4"))
      rfl rfl rfl).1 ⟨"InstanceReconcile", instQuery "i4", rfl⟩

/-- C1: the claim's scenario actually lands in status VERIFIED, not
RECONCILED, and the fail reason stays unset — `_attempt_reconciled_verify`
calls `_mark_exist_verified(exist)` with `reconciled` and `reason` left at
their defaults, so the RECONCILED branch of `_mark_exist_verified` is dead
code.  Evaluated here at a snapshot whose fast path fails on a tenant
mismatch while a single reconcile record agrees on every compared field:
verify returns verified=true but the stored status is VERIFIED and the
original failure's description is not recorded. -/
theorem c1_reconciled_success_marks_verified :
    (dbverify c1DB c1Exist).1 = true ∧
    (dbverify c1DB c1Exist).2.status = ExistStatus.verified ∧
    (dbverify c1DB c1Exist).2.status ≠ ExistStatus.reconciled ∧
    (dbverify c1DB c1Exist).2.fail_reason = none := by
  refine ⟨rfl, rfl, ?_, rfl⟩
  intro h
  have hv : (dbverify c1DB c1Exist).2.status = ExistStatus.verified := rfl
  rw [hv] at h
  cases h

theorem find_launch_inst_pos (db : DB) (i : String) (la : Nat) (u : InstanceUsage)
    (h : u ∈ find_launch db i la) :
    0 < (db.usages.filter (fun v => v.inst == i)).length := by
  obtain ⟨hmem, hcond⟩ := List.mem_filter.mp h
  simp only [Bool.and_eq_true] at hcond
  exact List.length_pos_of_mem (List.mem_filter.mpr ⟨hmem, hcond.1⟩)

theorem find_reconcile_inst_pos (db : DB) (i : String) (la : Nat)
    (r : InstanceReconcile) (h : r ∈ find_reconcile db i la) :
    0 < (db.reconciles.filter (fun v => v.inst == i)).length := by
  obtain ⟨hmem, hcond⟩ := List.mem_filter.mp h
  simp only [Bool.and_eq_true] at hcond
  exact List.length_pos_of_mem (List.mem_filter.mpr ⟨hmem, hcond.1⟩)

/-- C3 counterexample: a snapshot with a deleted-at value whose launch
window holds two delete candidates — the lookup's cardinality is 2, yet
`_verify_for_delete` raises `NotFound`, not `AmbiguousResults` as the claim
states for every lookup. -/
theorem c3_delete_over_one_is_notfound_counterexample :
    (find_delete c3cDB "i3c" 1000000 none).length = 2 ∧
    verify_for_delete c3cDB c3cExist none "InstanceDelete" =
      Except.error (VerifyErr.notFound "InstanceDelete"
        (launchQuery "i3c" (some 1000000))) := by
  exact ⟨rfl, rfl⟩

/-- C3 amended: for the launch and reconcile lookups, cardinality 0 raises
`NotFound`, cardinality 1 is used as the match, and cardinality greater
than 1 raises `AmbiguousResults`; the delete lookup (when the snapshot has
a truthy deleted-at) instead raises `NotFound` for every cardinality other
than exactly 1 — including the ambiguous case — and uses the single
candidate otherwise.  In no case does the verifier silently pick one of
several candidates. -/
theorem c3_lookup_cardinality_amended (db : DB) (e : InstanceExists) (la : Nat)
    (lt dt : String) (hla : e.launched_at = some la) :
    (e.usage = none →
      (find_launch db e.inst la = [] →
        ∃ q, verify_for_launch db e none lt =
          Except.error (VerifyErr.notFound lt q)) ∧
      (2 ≤ (find_launch db e.inst la).length →
        verify_for_launch db e none lt =
          Except.error (VerifyErr.ambiguousResults lt
            (launchQuery e.inst e.launched_at))) ∧
      (∀ l, find_launch db e.inst la = [l] →
        verify_for_launch db e none lt = verify_field_mismatch e l.toLaunchLike)) ∧
    (e.delete = none → truthyTs e.deleted_at = true →
      ((find_delete db e.inst la none).length ≠ 1 →
        verify_for_delete db e none dt =
          Except.error (VerifyErr.notFound dt (launchQuery e.inst e.launched_at))) ∧
      (∀ d, find_delete db e.inst la none = [d] →
        verify_for_delete db e none dt = delete_date_checks e d.toDeleteLike)) ∧
    (la ≠ 0 →
      (find_reconcile db e.inst la = [] →
        ∃ q, verify_with_reconciled_data db e =
          Except.error (VerifyErr.notFound "InstanceReconcile" q)) ∧
      (2 ≤ (find_reconcile db e.inst la).length →
        verify_with_reconciled_data db e =
          Except.error (VerifyErr.ambiguousResults "InstanceReconcile"
            (launchQuery e.inst e.launched_at))) ∧
      (∀ r, find_reconcile db e.inst la = [r] →
        verify_with_reconciled_data db e =
          (match verify_for_launch db e (some r.toLaunchLike) "InstanceReconcile" with
           | Except.error err => Except.error err
           | Except.ok _ =>
             verify_for_delete db e (some r.toDeleteLike) "InstanceReconcile"))) := by
  refine ⟨?_, ?_, ?_⟩
  · intro hus
    refine ⟨?_, ?_, ?_⟩
    · intro h0
      by_cases hc : 0 < (db.usages.filter (fun v => v.inst == e.inst)).length
      · exact ⟨launchQuery e.inst e.launched_at,
          by simp [verify_for_launch, resolve_launch, hus, hla, hc, h0]⟩
      · exact ⟨instQuery e.inst,
          by simp [verify_for_launch, resolve_launch, hus, hla, hc]⟩
    · intro h2
      have hne : find_launch db e.inst la ≠ [] := by
        intro h; rw [h] at h2; simp at h2
      obtain ⟨u, hu⟩ := List.exists_mem_of_ne_nil _ hne
      have hc := find_launch_inst_pos db e.inst la u hu
      have hgt : 1 < (find_launch db e.inst la).length := h2
      simp [verify_for_launch, resolve_launch, hus, hla, hc, hgt]
    · intro l hl
      have hc := find_launch_inst_pos db e.inst la l
        (by rw [hl]; exact List.mem_singleton_self l)
      simp [verify_for_launch, resolve_launch, hus, hla, hc, hl]
  · intro hdc hdat
    refine ⟨?_, ?_⟩
    · intro hne1
      simp [verify_for_delete, resolve_delete, hdc, hdat, hla, hne1]
    · intro d hd
      simp [verify_for_delete, resolve_delete, hdc, hdat, hla, hd]
  · intro hla0
    have htr : truthyTs (some la) = true := by
      simp [truthyTs, hla0]
    refine ⟨?_, ?_, ?_⟩
    · intro h0
      by_cases hc : 0 < (db.reconciles.filter (fun v => v.inst == e.inst)).length
      · exact ⟨launchQuery e.inst e.launched_at,
          by simp [verify_with_reconciled_data, resolve_reconcile, htr, hla, hc, h0]⟩
      · exact ⟨instQuery e.inst,
          by simp [verify_with_reconciled_data, resolve_reconcile, htr, hla, hc]⟩
    · intro h2
      have hne : find_reconcile db e.inst la ≠ [] := by
        intro h; rw [h] at h2; simp at h2
      obtain ⟨r, hr⟩ := List.exists_mem_of_ne_nil _ hne
      have hc := find_reconcile_inst_pos db e.inst la r hr
      have hgt : 1 < (find_reconcile db e.inst la).length := h2
      simp [verify_with_reconciled_data, resolve_reconcile, htr, hla, hc, hgt]
    · intro r hr
      have hc := find_reconcile_inst_pos db e.inst la r
        (by rw [hr]; exact List.mem_singleton_self r)
      simp [verify_with_reconciled_data, resolve_reconcile, htr, hla, hc, hr]

/-- C3 witness: a concrete snapshot whose launch window holds exactly one
usage candidate proceeds to the field comparison against that candidate. -/
theorem c3_lookup_cardinality_amended_witness :
    verify_for_launch c3wDB c3wExist none "InstanceUsage" =
      verify_field_mismatch c3wExist c3wUsage.toLaunchLike := by
  exact ((c3_lookup_cardinality_amended c3wDB c3wExist 1000000
      "InstanceUsage" "InstanceDelete" rfl).1 rfl).2.2 c3wUsage rfl

theorem getField_setField_same (b : List (String × String)) (k v : String) :
    getField (setField b k v) k = some v := by
  induction b with
  | nil => simp [setField, getField]
  | cons p rest ih =>
    obtain ⟨k1, v1⟩ := p
    by_cases h : k1 = k
    · simp [setField, getField, h]
    · simp [setField, getField, h, ih]

theorem getField_setField_ne (b : List (String × String)) (k v k2 : String)
    (h : k2 ≠ k) :
    getField (setField b k v) k2 = getField b k2 := by
  induction b with
  | nil => simp [setField, getField, Ne.symm h]
  | cons p rest ih =>
    obtain ⟨k1, v1⟩ := p
    by_cases h1 : k1 = k
    · subst h1
      simp [setField, getField, Ne.symm h]
    · by_cases h2 : k1 = k2
      · subst h2
        simp [setField, getField, h1]
      · simp [setField, getField, h1, h2, ih]

/-- C9: for every raw message whose body carries a `message_id`, the
notification step publishes one message per configured routing key — or a
single message on the message's own routing key when none are configured —
and every published body agrees with the original body on every field
except exactly the three mutated ones: the event type becomes the verified
variant, `original_message_id` becomes the prior message id, and
`message_id` becomes the freshly generated id. -/
theorem c9_send_verified_notification_spec (raw : RawMessage) (fresh : String)
    (rks : Option (List String)) (mid : String)
    (hmid : getField raw.body "message_id" = some mid) :
    ∃ msgs, send_verified_notification raw fresh rks = Except.ok msgs ∧
      (rks = none → msgs.map Prod.fst = [raw.routing_key]) ∧
      (∀ ks, rks = some ks → msgs.map Prod.fst = ks) ∧
      (∀ m ∈ msgs,
        getField m.2 "event_type" = some "compute.instance.exists.verified.old" ∧
        getField m.2 "original_message_id" = some mid ∧
        getField m.2 "message_id" = some fresh ∧
        ∀ k, k ≠ "event_type" → k ≠ "original_message_id" → k ≠ "message_id" →
          getField m.2 k = getField raw.body k) := by
  have h1 : getField
      (setField raw.body "event_type" "compute.instance.exists.verified.old")
      "message_id" = some mid := by
    rw [getField_setField_ne _ _ _ _ (by decide)]
    exact hmid
  have hprop : ∀ body, body =
      setField (setField
        (setField raw.body "event_type" "compute.instance.exists.verified.old")
        "original_message_id" mid) "message_id" fresh →
      getField body "event_type" = some "compute.instance.exists.verified.old" ∧
      getField body "original_message_id" = some mid ∧
      getField body "message_id" = some fresh ∧
      ∀ k, k ≠ "event_type" → k ≠ "original_message_id" → k ≠ "message_id" →
        getField body k = getField raw.body k := by
    rintro body rfl
    refine ⟨?_, ?_, ?_, ?_⟩
    · rw [getField_setField_ne _ _ _ _ (by decide),
        getField_setField_ne _ _ _ _ (by decide), getField_setField_same]
    · rw [getField_setField_ne _ _ _ _ (by decide), getField_setField_same]
    · rw [getField_setField_same]
    · intro k hk1 hk2 hk3
      rw [getField_setField_ne _ _ _ _ hk3, getField_setField_ne _ _ _ _ hk2,
        getField_setField_ne _ _ _ _ hk1]
  cases rks with
  | none =>
    refine ⟨[(raw.routing_key,
        setField (setField
          (setField raw.body "event_type" "compute.instance.exists.verified.old")
          "original_message_id" mid) "message_id" fresh)], ?_, ?_, ?_, ?_⟩
    · simp only [send_verified_notification]
      rw [h1]
    · intro _; rfl
    · intro ks hks; cases hks
    · intro m hm
      rw [List.mem_singleton] at hm
      subst hm
      exact hprop _ rfl
  | some ks =>
    refine ⟨ks.map (fun k => (k,
        setField (setField
          (setField raw.body "event_type" "compute.instance.exists.verified.old")
          "original_message_id" mid) "message_id" fresh)), ?_, ?_, ?_, ?_⟩
    · simp only [send_verified_notification]
      rw [h1]
    · intro h; cases h
    · intro ks2 hks
      cases hks
      induction ks with
      | nil => rfl
      | cons a t ih => simpa using ih
    · intro m hm
      obtain ⟨k, hk, hkm⟩ := List.mem_map.mp hm
      subst hkm
      exact hprop _ rfl

/-- C9 witness: a concrete raw message with a `message_id` and one extra
field, published with no configured routing keys. -/
theorem c9_send_verified_notification_spec_witness :
    ∃ msgs,
      send_verified_notification ⟨"rk", [("message_id", "m1"), ("foo", "bar")]⟩
        "u1" none = Except.ok msgs ∧
      (none = (none : Option (List String)) → msgs.map Prod.fst = ["rk"]) ∧
      (∀ ks, (none : Option (List String)) = some ks → msgs.map Prod.fst = ks) ∧
      (∀ m ∈ msgs,
        getField m.2 "event_type" = some "compute.instance.exists.verified.old" ∧
        getField m.2 "original_message_id" = some "m1" ∧
        getField m.2 "message_id" = some "u1" ∧
        ∀ k, k ≠ "event_type" → k ≠ "original_message_id" → k ≠ "message_id" →
          getField m.2 k =
            getField [("message_id", "m1"), ("foo", "bar")] k) := by
  exact c9_send_verified_notification_spec
    ⟨"rk", [("message_id", "m1"), ("foo", "bar")]⟩ "u1" none "m1" rfl
